import Mathlib

/-!
Verification development for a voice-driven scheduling assistant
(duplex audio pipeline plus calendar tool calls).

The Python sources are embedded shallowly:

- tools.py : the calendar tools, parameterised over an abstract backend.
  Each fallible Python expression (the network call of the Google Calendar
  service, the ISO-string parse) is modelled as an Except-valued input, and
  the try/except wrapper of each tool is the explicit catch that turns an
  error into the error string the Python code returns.  Python datetimes
  are modelled as minutes (Nat) in local time, so the hour of a timestamp
  t is t / 60 % 24 and 48 hours are 48 * 60 minutes.

- scheduler_logic.py : the LangGraph workflow with its three nodes and the
  conditional routing function, composed sequentially exactly as the graph
  wires them (entry check, conditional edge, branch node, END).

- main.py / ui.py : the tool-call dispatch of the receive loop, the bounded
  capture queue with its two producer variants, the playback-queue
  interruption handling, and the AgentWorker teardown, all as data-level
  step functions.
-/

namespace SchedAI

/-- Calendar event as read by the tool layer: the summary string, the raw
start string used by list_upcoming_events, and the parsed dateTime bounds
in minutes (none when the field is absent, as the Python .get returns
None). -/
structure Event where
  summary : String
  startRaw : String
  startTime : Option Nat
  endTime : Option Nat
deriving Repr, DecidableEq

/-- Body of tools.list_upcoming_events inside its try block: query the
service, then either the no-events message or one line per event. -/
def list_upcoming_events_body (query : Except String (List Event)) :
    Except String String := do
  let events ← query
  if events.isEmpty then
    pure "No upcoming events found."
  else
    pure (String.intercalate "\n"
      (events.map (fun e => "Event: " ++ e.summary ++ " at " ++ e.startRaw)))

/-- tools.list_upcoming_events: the try/except wrapper returns the body
result, or the error string built from the caught exception. -/
def list_upcoming_events (query : Except String (List Event)) : String :=
  match list_upcoming_events_body query with
  | Except.ok s => s
  | Except.error e => "Error: " ++ e

/-- Body of tools.check_specific_slot inside its try block: parse the start,
compute the end, query events in the window, and report availability or the
comma-separated conflict summaries. -/
def check_specific_slot_body (startParse : Except String Nat)
    (duration_minutes : Nat) (query : Nat → Nat → Except String (List Event)) :
    Except String String := do
  let start_dt ← startParse
  let end_dt := start_dt + duration_minutes
  let events ← query start_dt end_dt
  if events.isEmpty then
    pure "Available"
  else
    pure ("Conflict with: " ++
      String.intercalate ", " (events.map (fun e => e.summary)))

/-- tools.check_specific_slot: try/except wrapper around the body. -/
def check_specific_slot (startParse : Except String Nat)
    (duration_minutes : Nat) (query : Nat → Nat → Except String (List Event)) :
    String :=
  match check_specific_slot_body startParse duration_minutes query with
  | Except.ok s => s
  | Except.error e => "Error: " ++ e

/-- Busy-interval extraction of tools.find_nearest_slots: keep events whose
start and end dateTime fields are both present. -/
def busyTimes (events : List Event) : List (Nat × Nat) :=
  events.filterMap (fun e =>
    match e.startTime, e.endTime with
    | some s, some t => some (s, t)
    | _, _ => none)

/-- Overlap test of the inner for-loop of find_nearest_slots: the candidate
slot is busy when current < b_end and slot_end > b_start for some busy
interval. -/
def overlapsBusy (busy : List (Nat × Nat)) (current slot_end : Nat) : Bool :=
  busy.any (fun b => decide (current < b.2) && decide (b.1 < slot_end))

/-- Business-hours test of find_nearest_slots: 9 <= current.hour < 18. -/
def businessHour (t : Nat) : Bool :=
  decide (9 ≤ t / 60 % 24) && decide (t / 60 % 24 < 18)

/-- The while loop of tools.find_nearest_slots: while fewer than 3 slots are
collected and current is before the 48-hour horizon, append current when it
is free and within business hours, then advance by 30 minutes.  The loop
runs at most 96 guarded iterations (the horizon is 2880 minutes away and
each iteration advances 30 minutes), so fuel 96 makes the recursion
structural without changing the result. -/
def findSlotsAux (busy : List (Nat × Nat)) (duration_minutes end_search : Nat) :
    Nat → Nat → List Nat → List Nat
  | 0, _, free_slots => free_slots
  | fuel + 1, current, free_slots =>
    if free_slots.length < 3 ∧ current < end_search then
      findSlotsAux busy duration_minutes end_search fuel (current + 30)
        (if overlapsBusy busy current (current + duration_minutes) then free_slots
         else if businessHour current then free_slots ++ [current]
         else free_slots)
    else free_slots

/-- Body of tools.find_nearest_slots inside its try block.  The render
parameter stands for datetime.isoformat, which is opaque to this
embedding. -/
def find_nearest_slots_body (startParse : Except String Nat)
    (duration_minutes : Nat) (query : Nat → Nat → Except String (List Event))
    (render : Nat → String) : Except String String := do
  let start_dt ← startParse
  let end_search_dt := start_dt + 48 * 60
  let events ← query start_dt end_search_dt
  let busy := busyTimes events
  let free_slots := findSlotsAux busy duration_minutes end_search_dt 96 start_dt []
  if free_slots.isEmpty then
    pure "No free slots found in next 48 hours."
  else
    pure ("Available slots: " ++
      String.intercalate ", " (free_slots.map render))

/-- tools.find_nearest_slots: try/except wrapper around the body. -/
def find_nearest_slots (startParse : Except String Nat)
    (duration_minutes : Nat) (query : Nat → Nat → Except String (List Event))
    (render : Nat → String) : String :=
  match find_nearest_slots_body startParse duration_minutes query render with
  | Except.ok s => s
  | Except.error e => "Error: " ++ e

/-- Single-quote character used by the book_meeting confirmation string. -/
def quoteChar : String := String.singleton (Char.ofNat 39)

/-- Body of tools.book_meeting inside its try block: parse the start,
compute the end, insert the event (a fallible backend call), and return the
confirmation string. -/
def book_meeting_body (summary start_iso : String)
    (startParse : Except String Nat) (duration_minutes : Nat)
    (insert : Nat → Nat → Except String Unit) : Except String String := do
  let start_dt ← startParse
  let end_dt := start_dt + duration_minutes
  let _ ← insert start_dt end_dt
  pure ("Meeting " ++ quoteChar ++ summary ++ quoteChar ++
    " booked successfully at " ++ start_iso)

/-- tools.book_meeting: try/except wrapper around the body; a caught
exception becomes the booking-failed string. -/
def book_meeting (summary start_iso : String)
    (startParse : Except String Nat) (duration_minutes : Nat)
    (insert : Nat → Nat → Except String Unit) : String :=
  match book_meeting_body summary start_iso startParse duration_minutes insert with
  | Except.ok s => s
  | Except.error e => "Booking failed: " ++ e

/-- State dictionary of scheduler_logic.SchedulerState. -/
structure SchedulerState where
  request_start_iso : String
  duration : Nat
  final_response : String
  status : String
deriving Repr, DecidableEq

/-- scheduler_logic.check_availability_node: store the check result in the
status field.  The checkSlot parameter stands for tools.check_specific_slot
under the ambient calendar backend. -/
def check_availability_node (checkSlot : String → Nat → String)
    (state : SchedulerState) : SchedulerState :=
  { state with status := checkSlot state.request_start_iso state.duration }

/-- scheduler_logic.handle_available_node. -/
def handle_available_node (state : SchedulerState) : SchedulerState :=
  { state with final_response := "Available" }

/-- scheduler_logic.find_alternative_node: the busy branch builds the final
response from the full return string of tools.find_nearest_slots. -/
def find_alternative_node (findSlots : String → Nat → String)
    (state : SchedulerState) : SchedulerState :=
  { state with final_response :=
      "Busy. Alternatives: " ++ findSlots state.request_start_iso state.duration }

/-- scheduler_logic.route_after_check: route to the available node exactly
when the status is the literal string Available. -/
def route_after_check (state : SchedulerState) : String :=
  if state.status = "Available" then "available" else "suggest_alternatives"

/-- The compiled LangGraph app: entry node check, conditional edge by
route_after_check, then the selected branch node, then END. -/
def app_invoke (checkSlot findSlots : String → Nat → String)
    (request_start_iso : String) (duration : Nat) : SchedulerState :=
  let s0 : SchedulerState := ⟨request_start_iso, duration, "", ""⟩
  let s1 := check_availability_node checkSlot s0
  if route_after_check s1 = "available" then handle_available_node s1
  else find_alternative_node findSlots s1

/-- scheduler_logic.smart_check_availability: invoke the graph and return
the final_response field. -/
def smart_check_availability (checkSlot findSlots : String → Nat → String)
    (start_iso : String) (duration : Nat) : String :=
  (app_invoke checkSlot findSlots start_iso duration).final_response

/-- Split of a character list at every occurrence of a separator
character, used by the spec-modelled list shape below. -/
def splitOnChar (sep : Char) : List Char → List (List Char)
  | [] => [[]]
  | c :: rest =>
    if c = sep then [] :: splitOnChar sep rest
    else
      match splitOnChar sep rest with
      | [] => [[c]]
      | p :: ps => (c :: p) :: ps

/-- Modelled from the spec: one piece of a comma-separated ISO8601 list
must look like a single ISO8601 timestamp, that is a nonempty token with no
interior space (one leading space after the separating comma is allowed).
This definition follows the words of the spec, for comparison against the
code. -/
def specIsoTokenChars (cs : List Char) : Bool :=
  let cs2 := if cs.head? = some (Char.ofNat 32) then cs.drop 1 else cs
  decide (cs2 ≠ []) && cs2.all (fun c => decide (c ≠ Char.ofNat 32))

/-- Modelled from the spec: a comma-separated list of ISO8601 timestamps,
following the words of the spec, for comparison against the code. -/
def specCommaIsoList (s : String) : Bool :=
  (splitOnChar (Char.ofNat 44) s.data).all specIsoTokenChars

/-- One function-call request of a ToolCallBatch: engine-assigned id, tool
name, and the argument mapping (abstract here). -/
structure ToolCallRequest (Args : Type) where
  id : String
  name : String
  args : Args
deriving Repr, DecidableEq

/-- Outcome of invoking a registered handler: the Python call either
returns a value or raises an exception carrying a message. -/
inductive Invocation where
  | ok (result : String)
  | raise (msg : String)
deriving Repr, DecidableEq

/-- Payload of a FunctionResponse: the response dictionary keyed by result
on success or by error when the handler raised. -/
inductive ResponsePayload where
  | result (value : String)
  | error (msg : String)
deriving Repr, DecidableEq

/-- types.FunctionResponse as built by the receive loop. -/
structure FunctionResponse where
  id : String
  name : String
  response : ResponsePayload
deriving Repr, DecidableEq

/-- Dispatch of one request in the tool-call loop of receive_from_gemini
(identical in main.py and ui.py): look the name up in tools_map; when a
handler is found, call it inside try/except and append one FunctionResponse
carrying the request id and either the result or the caught error message;
when no handler is found, append nothing (main.py only prints a
tool-not-found line). -/
def dispatchOne {Args : Type} (tools_map : String → Option (Args → Invocation))
    (fc : ToolCallRequest Args) : List FunctionResponse :=
  match tools_map fc.name with
  | some func =>
    match func fc.args with
    | Invocation.ok result => [⟨fc.id, fc.name, ResponsePayload.result result⟩]
    | Invocation.raise e => [⟨fc.id, fc.name, ResponsePayload.error e⟩]
  | none => []

/-- The for-loop over response.tool_call.function_calls: collect the
function_responses list in request order. -/
def processBatch {Args : Type} (tools_map : String → Option (Args → Invocation)) :
    List (ToolCallRequest Args) → List FunctionResponse
  | [] => []
  | fc :: rest => dispatchOne tools_map fc ++ processBatch tools_map rest

/-- The send_tool_response calls made for one batch: one call carrying the
collected list when it is nonempty, no call at all when it is empty
(the code guards the send with an emptiness test). -/
def batchSends {Args : Type} (tools_map : String → Option (Args → Invocation))
    (batch : List (ToolCallRequest Args)) : List (List FunctionResponse) :=
  let function_responses := processBatch tools_map batch
  if function_responses.isEmpty then [] else [function_responses]

/-- A bounded asyncio.Queue: configured maxsize and current items in FIFO
order. -/
structure BoundedQueue (α : Type) where
  maxsize : Nat
  items : List α
deriving Repr, DecidableEq

/-- asyncio.Queue.full: with a positive maxsize, full when the current size
has reached maxsize. -/
def BoundedQueue.full {α : Type} (q : BoundedQueue α) : Bool :=
  decide (q.maxsize ≤ q.items.length)

/-- Outcome of awaiting put on a bounded queue: the item is appended when
space is free; on a full queue the producer coroutine suspends, leaving the
queue unchanged — the item is neither dropped nor is an error raised. -/
inductive PutOutcome (α : Type) where
  | enqueued (q : BoundedQueue α)
  | suspended
deriving Repr, DecidableEq

/-- Semantics of await q.put(item) on a bounded asyncio.Queue. -/
def BoundedQueue.putAwait {α : Type} (q : BoundedQueue α) (a : α) :
    PutOutcome α :=
  if q.full then PutOutcome.suspended
  else PutOutcome.enqueued ⟨q.maxsize, q.items ++ [a]⟩

/-- The capture queue of main.py and ui.py: asyncio.Queue(maxsize=5),
initially empty. -/
def audio_queue_mic (α : Type) : BoundedQueue α := ⟨5, []⟩

/-- One loop iteration of the ui.py AgentWorker.listen_mic producer after a
frame is read: the put is guarded by an emptiness-of-space test — when the
queue is full the put is skipped entirely, so the frame is dropped and the
loop proceeds to the next read. -/
def uiListenMicStep {α : Type} (q : BoundedQueue α) (a : α) : BoundedQueue α :=
  if q.full then q
  else
    match q.putAwait a with
    | PutOutcome.enqueued q2 => q2
    | PutOutcome.suspended => q

/-- Events touching the capture queue: an awaited put by the producer
(main.py listen_mic) and an awaited get by send_to_gemini.  A put on a full
queue and a get on an empty queue suspend, leaving the queue unchanged. -/
inductive MicStep (α : Type) where
  | put (a : α)
  | take
deriving Repr, DecidableEq

/-- Small-step semantics of the capture queue under main.py. -/
def micQueueStep {α : Type} (q : BoundedQueue α) : MicStep α → BoundedQueue α
  | MicStep.put a =>
    match q.putAwait a with
    | PutOutcome.enqueued q2 => q2
    | PutOutcome.suspended => q
  | MicStep.take => ⟨q.maxsize, q.items.drop 1⟩

/-- Run of the capture queue from a starting state. -/
def micQueueRun {α : Type} (q : BoundedQueue α) (steps : List (MicStep α)) :
    BoundedQueue α :=
  steps.foldl micQueueStep q

/-- Result of a Python method call that can raise AttributeError. -/
inductive PyOutcome (α : Type) where
  | ok (a : α)
  | attributeError (attr : String)
deriving Repr, DecidableEq

/-- Attribute state of a ui.py AgentWorker relevant to stop(): whether the
stop_event is set, and whether the mic_stream and spk_stream attributes have
ever been assigned on self. -/
structure AgentWorkerState where
  stopEventSet : Bool
  micStreamDefined : Bool
  spkStreamDefined : Bool
deriving Repr, DecidableEq

/-- AgentWorker.__init__: assigns client, the queues, stop_event, loop,
tools_map and tool_declarations, but never assigns self.mic_stream or
self.spk_stream; listen_mic and play_speaker only bind a local variable
named stream, so these two attributes stay undefined for the whole life of
the worker. -/
def agentWorkerInit : AgentWorkerState := ⟨false, false, false⟩

/-- AgentWorker.stop of ui.py: set the stop event, then evaluate the guard
reading self.mic_stream (and later self.spk_stream).  Reading an attribute
that was never assigned raises AttributeError in Python; the surrounding
try/except blocks sit inside the if-bodies, not around the guards, so the
raise escapes stop() itself. -/
def AgentWorker.stop (w : AgentWorkerState) : PyOutcome AgentWorkerState :=
  let w1 : AgentWorkerState := ⟨true, w.micStreamDefined, w.spkStreamDefined⟩
  if w1.micStreamDefined = false then PyOutcome.attributeError "mic_stream"
  else if w1.spkStreamDefined = false then PyOutcome.attributeError "spk_stream"
  else PyOutcome.ok w1

/-- Events of the playback path: the receive loop enqueues an audio chunk
(put_nowait on the playback queue), the receive loop handles an Interrupted
event (drain), or play_speaker performs one get-and-write iteration.  Each
constructor is one atomic stretch of its coroutine between awaits under
cooperative asyncio scheduling. -/
inductive PipeStep (F : Type) where
  | enqueue (f : F)
  | interrupt
  | playback
deriving Repr, DecidableEq

/-- Playback-side state: the playback queue contents and the frames written
to the audio sink so far, in write order. -/
structure PipeState (F : Type) where
  queue : List F
  sink : List F
deriving Repr, DecidableEq

/-- The drain loop of the Interrupted branch: while the queue is nonempty,
get_nowait discards the front item.  The loop contains no await, so it is
atomic with respect to the other coroutines. -/
def drainLoop {F : Type} : List F → List F
  | [] => []
  | _ :: rest => drainLoop rest

/-- One step of the playback path.  On enqueue the chunk is appended; on
interrupt the drain loop empties the queue; on playback, when the queue is
nonempty its front frame is removed and written to the sink, and when it is
empty the get suspends, changing nothing. -/
def pipeStep {F : Type} (s : PipeState F) : PipeStep F → PipeState F
  | PipeStep.enqueue f => ⟨s.queue ++ [f], s.sink⟩
  | PipeStep.interrupt => ⟨drainLoop s.queue, s.sink⟩
  | PipeStep.playback =>
    match s.queue with
    | [] => s
    | f :: rest => ⟨rest, s.sink ++ [f]⟩

/-- Run of the playback path over a list of steps. -/
def pipeRun {F : Type} (s : PipeState F) (steps : List (PipeStep F)) :
    PipeState F :=
  steps.foldl pipeStep s

/-- Tool map in which no name is registered, exercising the lookup-miss
branch of the dispatch loop. -/
def noTools : String → Option (Unit → Invocation) := fun _ => none

/-- Tool map whose handlers all return normally. -/
def okTools : String → Option (Unit → Invocation) :=
  fun _ => some (fun _ => Invocation.ok "done")

/-- Tool map whose handlers all raise an exception with a fixed message. -/
def raisingTools : String → Option (Unit → Invocation) :=
  fun _ => some (fun _ => Invocation.raise "HttpError 500")

/-- Tool map whose handlers raise an exception whose message happens to be
the word timeout, the only way the dispatch loop can ever emit that error
message. -/
def timeoutRaisingTools : String → Option (Unit → Invocation) :=
  fun _ => some (fun _ => Invocation.raise "timeout")

/-- Backend query returning a single conflicting event named Standup. -/
def standupQuery : Nat → Nat → Except String (List Event) :=
  fun _ _ => Except.ok [⟨"Standup", "2025-12-08T19:00:00+05:30", some 1140, some 1200⟩]

/-- Backend query returning no events at all. -/
def emptyQuery : Nat → Nat → Except String (List Event) := fun _ _ => Except.ok []

/-- Backend query returning one long event blocking the whole 48-hour
search window (minutes 0 to 10000). -/
def blockQuery : Nat → Nat → Except String (List Event) :=
  fun _ _ => Except.ok [⟨"Block", "", some 0, some 10000⟩]

/-- Concrete stand-in for datetime.isoformat on the slots produced from a
9 AM start (minute 540 of the day). -/
def cexRender : Nat → String :=
  fun t =>
    if t = 540 then "2025-12-09T09:00:00+05:30"
    else if t = 570 then "2025-12-09T09:30:00+05:30"
    else "2025-12-09T10:00:00+05:30"

/-- tools.check_specific_slot instantiated at a backend holding the Standup
conflict, as a tool of the scheduler graph. -/
def cexCheckSlot : String → Nat → String :=
  fun _ d => check_specific_slot (Except.ok 1140) d standupQuery

/-- tools.find_nearest_slots instantiated at an empty backend starting the
search at 9 AM, as a tool of the scheduler graph. -/
def cexFindSlots : String → Nat → String :=
  fun _ d => find_nearest_slots (Except.ok 540) d emptyQuery cexRender

/-- A check tool whose backend call failed, producing the error string the
Python except branch returns. -/
def errorCheckSlot : String → Nat → String :=
  fun _ _ => "Error: backend unreachable"

/-- Five producer puts, filling the capture queue to its bound. -/
def fullSteps : List (MicStep Nat) :=
  [MicStep.put 0, MicStep.put 1, MicStep.put 2, MicStep.put 3, MicStep.put 4]

/-- A capture queue at its configured bound of 5. -/
def fullMicQueue : BoundedQueue Nat := ⟨5, [0, 1, 2, 3, 4]⟩

/-- Left cancellation for string append, proved through the underlying
character lists. -/
theorem string_append_cancel (a b c : String) (h : a ++ b = a ++ c) : b = c := by
  have hd := congrArg String.data h
  rw [String.data_append, String.data_append] at hd
  exact congrArg String.mk (List.append_cancel_left hd)

/-- Claim C2, amended: smart_check_availability returns the literal string
Available exactly when check_specific_slot (the checkSlot tool of the
graph) returns exactly Available; for any other check result it calls
find_nearest_slots and returns the busy prefix followed by the full return
string of that call (which on success itself starts with the label
Available slots: and is not a bare comma-separated timestamp list). -/
theorem C2_smart_check_two_branches (checkSlot findSlots : String → Nat → String)
    (start_iso : String) (duration : Nat) :
    smart_check_availability checkSlot findSlots start_iso duration =
      (if checkSlot start_iso duration = "Available" then "Available"
       else "Busy. Alternatives: " ++ findSlots start_iso duration) := by
  by_cases h : checkSlot start_iso duration = "Available" <;>
    simp [smart_check_availability, app_invoke, check_availability_node,
      route_after_check, handle_available_node, find_alternative_node, h]

/-- Claim C2, counterexample: with the backend holding a Standup conflict
and an empty 9 AM search window, the busy branch output is the busy prefix
followed by the label Available slots: and the timestamps — the suffix is
not a comma-separated list of ISO8601 timestamps as the claim states,
because its first comma-separated piece contains the label with its
spaces. -/
theorem C2_counterexample :
    smart_check_availability cexCheckSlot cexFindSlots "2025-12-08T19:00:00+05:30" 60 =
      "Busy. Alternatives: " ++
        "Available slots: 2025-12-09T09:00:00+05:30, 2025-12-09T09:30:00+05:30, 2025-12-09T10:00:00+05:30" ∧
    ¬ ∃ l : String, specCommaIsoList l = true ∧
      smart_check_availability cexCheckSlot cexFindSlots "2025-12-08T19:00:00+05:30" 60 =
        "Busy. Alternatives: " ++ l := by
  constructor
  · rfl
  · rintro ⟨l, hl, heq⟩
    have h1 : "Busy. Alternatives: " ++
        "Available slots: 2025-12-09T09:00:00+05:30, 2025-12-09T09:30:00+05:30, 2025-12-09T10:00:00+05:30" =
        "Busy. Alternatives: " ++ l := by
      rw [← heq]; rfl
    have h2 :
        l = "Available slots: 2025-12-09T09:00:00+05:30, 2025-12-09T09:30:00+05:30, 2025-12-09T10:00:00+05:30" :=
      (string_append_cancel _ _ _ h1).symm
    rw [h2] at hl
    exact absurd hl (by decide)

/-- Claim C10: whenever the check tool returns anything other than the
literal Available — including a backend-failure string — the graph routes
to find_alternative_node, which calls find_nearest_slots and returns the
busy prefix followed by the full return string of that second call; the
output starts with the busy prefix, so a backend error during the check is
never surfaced as an error string by smart_check_availability. -/
theorem C10_nonavailable_takes_busy_branch
    (checkSlot findSlots : String → Nat → String)
    (start_iso : String) (duration : Nat)
    (hbusy : checkSlot start_iso duration ≠ "Available") :
    smart_check_availability checkSlot findSlots start_iso duration =
      "Busy. Alternatives: " ++ findSlots start_iso duration ∧
    (smart_check_availability checkSlot findSlots start_iso duration).data.take 7 =
      "Busy. A".data := by
  have heq : smart_check_availability checkSlot findSlots start_iso duration =
      "Busy. Alternatives: " ++ findSlots start_iso duration := by
    simp [smart_check_availability, app_invoke, check_availability_node,
      route_after_check, handle_available_node, find_alternative_node, hbusy]
  refine ⟨heq, ?_⟩
  rw [heq, String.data_append, List.take_append_of_le_length (by decide)]
  decide

/-- Witness for claim C10 at a concrete backend failure: the check tool
returns an error string, and the result is the busy-alternatives string. -/
theorem C10_witness :
    smart_check_availability errorCheckSlot cexFindSlots "2025-12-08T19:00:00+05:30" 60 =
      "Busy. Alternatives: " ++ cexFindSlots "2025-12-08T19:00:00+05:30" 60 ∧
    (smart_check_availability errorCheckSlot cexFindSlots "2025-12-08T19:00:00+05:30" 60).data.take 7 =
      "Busy. A".data :=
  C10_nonavailable_takes_busy_branch errorCheckSlot cexFindSlots
    "2025-12-08T19:00:00+05:30" 60 (by decide)

/-- Claim C9: every calendar tool returns a human-readable string on every
input; when its body raises (here, when any of its fallible operations
fails), the try/except wrapper turns the failure into the documented error
string instead of propagating it; and the dispatch layer wraps any string
a handler returns as the successful result payload — only a fault raised
out of the handler becomes an error payload. -/
theorem C9_tools_return_strings (sp : Except String Nat) (d : Nat)
    (q : Nat → Nat → Except String (List Event))
    (qe : Except String (List Event)) (render : Nat → String)
    (summary start_iso : String) (ins : Nat → Nat → Except String Unit)
    (e1 e2 e3 e4 : String) (req : ToolCallRequest Unit) (f : Unit → String)
    (h1 : check_specific_slot_body sp d q = Except.error e1)
    (h2 : find_nearest_slots_body sp d q render = Except.error e2)
    (h3 : list_upcoming_events_body qe = Except.error e3)
    (h4 : book_meeting_body summary start_iso sp d ins = Except.error e4) :
    check_specific_slot sp d q = "Error: " ++ e1 ∧
    find_nearest_slots sp d q render = "Error: " ++ e2 ∧
    list_upcoming_events qe = "Error: " ++ e3 ∧
    book_meeting summary start_iso sp d ins = "Booking failed: " ++ e4 ∧
    dispatchOne (fun _ => some (fun a => Invocation.ok (f a))) req =
      [⟨req.id, req.name, ResponsePayload.result (f req.args)⟩] := by
  refine ⟨?_, ?_, ?_, ?_, ?_⟩
  · simp [check_specific_slot, h1]
  · simp [find_nearest_slots, h2]
  · simp [list_upcoming_events, h3]
  · simp [book_meeting, h4]
  · simp [dispatchOne]

/-- Witness for claim C9 at a concrete failing backend: the parse of the
start string and the event query both raise, and each tool returns its
error string while the dispatcher wraps a returned string as a result
payload. -/
theorem C9_witness :
    check_specific_slot (Except.error "boom") 60 emptyQuery = "Error: " ++ "boom" ∧
    find_nearest_slots (Except.error "boom") 60 emptyQuery cexRender = "Error: " ++ "boom" ∧
    list_upcoming_events (Except.error "boom") = "Error: " ++ "boom" ∧
    book_meeting "Sync" "2025-12-08T19:00:00+05:30" (Except.error "boom") 60
      (fun _ _ => Except.ok ()) = "Booking failed: " ++ "boom" ∧
    dispatchOne (fun _ => some (fun a => Invocation.ok ((fun _ => "Available") a)))
      (⟨"call-9", "check_specific_slot", ()⟩ : ToolCallRequest Unit) =
      [⟨"call-9", "check_specific_slot", ResponsePayload.result "Available"⟩] :=
  C9_tools_return_strings (Except.error "boom") 60 emptyQuery (Except.error "boom")
    cexRender "Sync" "2025-12-08T19:00:00+05:30" (fun _ _ => Except.ok ())
    "boom" "boom" "boom" "boom" ⟨"call-9", "check_specific_slot", ()⟩
    (fun _ => "Available") rfl rfl rfl rfl

/-- Every id in the per-batch response list matches the request list
one-to-one when every request name is registered. -/
theorem processBatch_map_id {Args : Type}
    (tools_map : String → Option (Args → Invocation)) :
    ∀ batch : List (ToolCallRequest Args),
      (∀ fc ∈ batch, (tools_map fc.name).isSome = true) →
      (processBatch tools_map batch).map FunctionResponse.id =
        batch.map ToolCallRequest.id := by
  intro batch
  induction batch with
  | nil => intro _; rfl
  | cons fc rest ih =>
    intro h
    rcases Option.isSome_iff_exists.mp (h fc (List.mem_cons_self fc rest)) with ⟨f, hf⟩
    have hrest := ih (fun x hx => h x (List.mem_cons_of_mem _ hx))
    cases hinv : f fc.args with
    | ok v => simp [processBatch, dispatchOne, hf, hinv, hrest]
    | raise e => simp [processBatch, dispatchOne, hf, hinv, hrest]

/-- Claim C1, amended: for a nonempty batch all of whose request names are
registered in the tool map, the dispatch loop produces exactly one result
per request, with response ids matching the request ids one-to-one in
order, and sends them in a single send_tool_response call.  Requests whose
names are not registered produce no result at all (rather than a
tool-not-found error result), which is why the hypothesis is needed. -/
theorem C1_registered_batch_sends {Args : Type}
    (tools_map : String → Option (Args → Invocation))
    (batch : List (ToolCallRequest Args))
    (hreg : ∀ fc ∈ batch, (tools_map fc.name).isSome = true)
    (hne : batch ≠ []) :
    (processBatch tools_map batch).length = batch.length ∧
    (processBatch tools_map batch).map FunctionResponse.id =
      batch.map ToolCallRequest.id ∧
    batchSends tools_map batch = [processBatch tools_map batch] := by
  have hmap := processBatch_map_id tools_map batch hreg
  have hlen : (processBatch tools_map batch).length = batch.length := by
    have hc := congrArg List.length hmap
    simpa using hc
  refine ⟨hlen, hmap, ?_⟩
  cases hpb : processBatch tools_map batch with
  | nil =>
    exfalso
    apply hne
    apply List.eq_nil_of_length_eq_zero
    rw [← hlen, hpb]
    rfl
  | cons r rs =>
    rw [← hpb]
    simp [batchSends, hpb]

/-- Claim C1, counterexample: a batch with one request whose name has no
registered handler yields zero results and zero send_tool_response calls —
not one result carrying a tool-not-found error as the claim states. -/
theorem C1_counterexample :
    ([(⟨"call-1", "unknown_tool", ()⟩ : ToolCallRequest Unit)].length = 1) ∧
    processBatch noTools [(⟨"call-1", "unknown_tool", ()⟩ : ToolCallRequest Unit)] = [] ∧
    batchSends noTools [(⟨"call-1", "unknown_tool", ()⟩ : ToolCallRequest Unit)] = [] :=
  ⟨rfl, rfl, rfl⟩

/-- Witness for claim C1 at a concrete registered batch of two requests. -/
theorem C1_witness :
    (processBatch okTools
      [(⟨"call-1", "get_current_time", ()⟩ : ToolCallRequest Unit),
       ⟨"call-2", "book_meeting", ()⟩]).length =
      [(⟨"call-1", "get_current_time", ()⟩ : ToolCallRequest Unit),
       ⟨"call-2", "book_meeting", ()⟩].length ∧
    (processBatch okTools
      [(⟨"call-1", "get_current_time", ()⟩ : ToolCallRequest Unit),
       ⟨"call-2", "book_meeting", ()⟩]).map FunctionResponse.id =
      [(⟨"call-1", "get_current_time", ()⟩ : ToolCallRequest Unit),
       ⟨"call-2", "book_meeting", ()⟩].map ToolCallRequest.id ∧
    batchSends okTools
      [(⟨"call-1", "get_current_time", ()⟩ : ToolCallRequest Unit),
       ⟨"call-2", "book_meeting", ()⟩] =
      [processBatch okTools
        [(⟨"call-1", "get_current_time", ()⟩ : ToolCallRequest Unit),
         ⟨"call-2", "book_meeting", ()⟩]] :=
  C1_registered_batch_sends okTools
    [⟨"call-1", "get_current_time", ()⟩, ⟨"call-2", "book_meeting", ()⟩]
    (by intro fc _; rfl) (by decide)

/-- Claim C3: a request whose registered handler raises has its exception
caught by the per-request try/except, and the batch response list records a
FunctionResponse carrying that request id and the exception message as the
error payload; the dispatch loop is total, so the raw fault never escapes
the receive loop. -/
theorem C3_handler_raise_recorded {Args : Type}
    (tools_map : String → Option (Args → Invocation))
    (batch : List (ToolCallRequest Args)) (fc : ToolCallRequest Args)
    (func : Args → Invocation) (msg : String)
    (hin : fc ∈ batch) (hf : tools_map fc.name = some func)
    (hraise : func fc.args = Invocation.raise msg) :
    (⟨fc.id, fc.name, ResponsePayload.error msg⟩ : FunctionResponse) ∈
      processBatch tools_map batch := by
  revert hin
  induction batch with
  | nil => intro hin; cases hin
  | cons g rest ih =>
    intro hin
    rcases List.mem_cons.mp hin with h | h
    · subst h
      have hone : dispatchOne tools_map fc =
          [⟨fc.id, fc.name, ResponsePayload.error msg⟩] := by
        simp [dispatchOne, hf, hraise]
      simp [processBatch, hone]
    · exact List.mem_append_right _ (ih h)

/-- Witness for claim C3 at a concrete raising handler. -/
theorem C3_witness :
    (⟨"call-2", "book_meeting", ResponsePayload.error "HttpError 500"⟩ : FunctionResponse) ∈
      processBatch raisingTools [(⟨"call-2", "book_meeting", ()⟩ : ToolCallRequest Unit)] :=
  C3_handler_raise_recorded raisingTools
    [⟨"call-2", "book_meeting", ()⟩] ⟨"call-2", "book_meeting", ()⟩
    (fun _ => Invocation.raise "HttpError 500") "HttpError 500"
    (List.mem_cons_self _ _) rfl rfl

/-- Claim C7 (the code has no timeout): every response payload produced by
the dispatch loop comes directly from the handler outcome — in particular
an error payload reading timeout can only arise when the handler itself
raised an exception with that exact message.  The dispatcher has no timeout
branch: it invokes the handler synchronously and waits for it without
bound. -/
theorem C7_no_timeout_mechanism {Args : Type}
    (tools_map : String → Option (Args → Invocation))
    (batch : List (ToolCallRequest Args)) (r : FunctionResponse)
    (hr : r ∈ processBatch tools_map batch)
    (ht : r.response = ResponsePayload.error "timeout") :
    ∃ fc ∈ batch, ∃ func : Args → Invocation,
      tools_map fc.name = some func ∧ func fc.args = Invocation.raise "timeout" := by
  revert hr
  induction batch with
  | nil => intro hr; cases hr
  | cons g rest ih =>
    intro hr
    rcases List.mem_append.mp (by simpa [processBatch] using hr) with h | h
    · cases hmap : tools_map g.name with
      | none => simp [dispatchOne, hmap] at h
      | some func =>
        cases hinv : func g.args with
        | ok v =>
          simp [dispatchOne, hmap, hinv] at h
          rw [h] at ht
          simp at ht
        | raise e =>
          simp [dispatchOne, hmap, hinv] at h
          rw [h] at ht
          simp at ht
          refine ⟨g, List.mem_cons_self _ _, func, hmap, ?_⟩
          rw [hinv, ht]
    · rcases ih h with ⟨fc, hfc, func, hm, hrs⟩
      exact ⟨fc, List.mem_cons_of_mem _ hfc, func, hm, hrs⟩

/-- Witness for claim C7: with a handler that itself raises the message
timeout, the produced error payload is traced back to that handler. -/
theorem C7_witness :
    ∃ fc ∈ [(⟨"call-3", "check_specific_slot", ()⟩ : ToolCallRequest Unit)],
      ∃ func : Unit → Invocation,
        timeoutRaisingTools fc.name = some func ∧
        func fc.args = Invocation.raise "timeout" :=
  C7_no_timeout_mechanism timeoutRaisingTools
    [⟨"call-3", "check_specific_slot", ()⟩]
    ⟨"call-3", "check_specific_slot", ResponsePayload.error "timeout"⟩
    (by decide) rfl

/-- One step of the capture queue preserves the configured maxsize and the
bound invariant. -/
theorem micQueueStep_invariant {α : Type} (q : BoundedQueue α) (st : MicStep α)
    (h : q.items.length ≤ q.maxsize) :
    (micQueueStep q st).maxsize = q.maxsize ∧
    (micQueueStep q st).items.length ≤ q.maxsize := by
  cases st with
  | put a =>
    cases hf : q.full with
    | true => simp [micQueueStep, BoundedQueue.putAwait, hf, h]
    | false =>
      have hlt : q.items.length < q.maxsize := by
        simp [BoundedQueue.full] at hf
        omega
      simp [micQueueStep, BoundedQueue.putAwait, hf]
      omega
  | take =>
    refine ⟨rfl, ?_⟩
    simp [micQueueStep]
    omega

/-- Bound invariant of the capture queue over any run of producer puts and
consumer gets. -/
theorem micQueueRun_invariant {α : Type} (steps : List (MicStep α)) :
    ∀ q : BoundedQueue α, q.items.length ≤ q.maxsize →
      (micQueueRun q steps).maxsize = q.maxsize ∧
      (micQueueRun q steps).items.length ≤ q.maxsize := by
  induction steps with
  | nil => intro q h; exact ⟨rfl, h⟩
  | cons st rest ih =>
    intro q h
    have hstep := micQueueStep_invariant q st h
    have hrun := ih (micQueueStep q st) (by rw [hstep.1]; exact hstep.2)
    constructor
    · show (micQueueRun (micQueueStep q st) rest).maxsize = q.maxsize
      rw [hrun.1, hstep.1]
    · show (micQueueRun (micQueueStep q st) rest).items.length ≤ q.maxsize
      have h2 := hrun.2
      rw [hstep.1] at h2
      exact h2

/-- Claim C4, amended: from its empty initial state the capture queue with
maxsize 5 never holds more than 5 frames under any run of puts and gets;
the main.py producer awaiting put on a full queue suspends, leaving the
queue unchanged and neither dropping the frame nor raising; the ui.py
producer, however, skips the put when the queue is full, so that producer
drops the frame instead of suspending. -/
theorem C4_capture_queue_bound {α : Type} (steps : List (MicStep α)) (a : α) :
    (micQueueRun (audio_queue_mic α) steps).items.length ≤ 5 ∧
    ((micQueueRun (audio_queue_mic α) steps).full = true →
      (micQueueRun (audio_queue_mic α) steps).putAwait a = PutOutcome.suspended ∧
      uiListenMicStep (micQueueRun (audio_queue_mic α) steps) a =
        micQueueRun (audio_queue_mic α) steps) := by
  have hinv := micQueueRun_invariant steps (audio_queue_mic α) (by simp [audio_queue_mic])
  constructor
  · have h2 := hinv.2
    simpa [audio_queue_mic] using h2
  · intro hfull
    constructor
    · simp [BoundedQueue.putAwait, hfull]
    · simp [uiListenMicStep, hfull]

/-- Witness for claim C4: five puts fill the queue to its bound; a sixth
awaited put suspends, while the ui.py producer step leaves the full queue
unchanged (the frame is dropped). -/
theorem C4_witness :
    (micQueueRun (audio_queue_mic Nat) fullSteps).items.length ≤ 5 ∧
    (micQueueRun (audio_queue_mic Nat) fullSteps).putAwait 9 = PutOutcome.suspended ∧
    uiListenMicStep (micQueueRun (audio_queue_mic Nat) fullSteps) 9 =
      micQueueRun (audio_queue_mic Nat) fullSteps :=
  ⟨(C4_capture_queue_bound fullSteps 9).1,
   ((C4_capture_queue_bound fullSteps 9).2 (by decide)).1,
   ((C4_capture_queue_bound fullSteps 9).2 (by decide)).2⟩

/-- Claim C4, counterexample: the full queue is reachable by five puts, it
reports full, and the ui.py producer attempting to put frame 9 neither
suspends nor enqueues: the queue is unchanged and the frame is gone,
refuting the claim that a producer never drops a frame. -/
theorem C4_counterexample :
    micQueueRun (audio_queue_mic Nat) fullSteps = fullMicQueue ∧
    fullMicQueue.full = true ∧
    uiListenMicStep fullMicQueue 9 = fullMicQueue ∧
    (9 : Nat) ∉ (uiListenMicStep fullMicQueue 9).items := by
  decide

/-- Claim C5 (code bug in the code, claim matches the intent): stop() first
sets the stop event and then reads self.mic_stream in its guard, but that
attribute is never assigned anywhere in the class (listen_mic binds only a
local variable named stream), so the very first call raises AttributeError
and so does any repeated call — contradicting both the claim and the
docstring of stop() itself. -/
theorem C5_stop_raises_attribute_error :
    AgentWorker.stop agentWorkerInit = PyOutcome.attributeError "mic_stream" ∧
    AgentWorker.stop (⟨true, false, false⟩ : AgentWorkerState) =
      PyOutcome.attributeError "mic_stream" :=
  ⟨rfl, rfl⟩

/-- The drain loop of the Interrupted branch empties the queue. -/
theorem drainLoop_eq_nil {F : Type} : ∀ l : List F, drainLoop l = []
  | [] => rfl
  | _ :: rest => drainLoop_eq_nil rest

/-- A frame absent from both the queue and the sink stays absent under any
steps that never enqueue it again. -/
theorem pipeRun_not_sunk {F : Type} (f : F) :
    ∀ (steps : List (PipeStep F)) (t : PipeState F),
      f ∉ t.queue → f ∉ t.sink →
      (∀ g : F, PipeStep.enqueue g ∈ steps → g ≠ f) →
      f ∉ (pipeRun t steps).queue ∧ f ∉ (pipeRun t steps).sink := by
  intro steps
  induction steps with
  | nil => intro t hq hs _; exact ⟨hq, hs⟩
  | cons st rest ih =>
    intro t hq hs hfresh
    have hrest : ∀ g : F, PipeStep.enqueue g ∈ rest → g ≠ f :=
      fun g hg => hfresh g (List.mem_cons_of_mem _ hg)
    have hstep : f ∉ (pipeStep t st).queue ∧ f ∉ (pipeStep t st).sink := by
      cases st with
      | enqueue g =>
        have hgf : g ≠ f := hfresh g (List.mem_cons_self _ _)
        constructor
        · intro hmem
          rcases (by simpa [pipeStep] using hmem : f ∈ t.queue ∨ f = g) with h1 | h2
          · exact hq h1
          · exact hgf h2.symm
        · simpa [pipeStep] using hs
      | interrupt =>
        constructor
        · simp [pipeStep, drainLoop_eq_nil]
        · simpa [pipeStep] using hs
      | playback =>
        cases hqq : t.queue with
        | nil =>
          have hpt : pipeStep t PipeStep.playback = t := by
            simp [pipeStep, hqq]
          rw [hpt]
          exact ⟨hq, hs⟩
        | cons x xs =>
          have hpt : pipeStep t PipeStep.playback = ⟨xs, t.sink ++ [x]⟩ := by
            simp [pipeStep, hqq]
          rw [hqq] at hq
          constructor
          · rw [hpt]
            intro hmem
            exact hq (List.mem_cons_of_mem _ hmem)
          · rw [hpt]
            intro hmem
            rcases List.mem_append.mp hmem with h1 | h2
            · exact hs h1
            · have hfx : f = x := by simpa using h2
              exact hq (hfx ▸ List.mem_cons_self x xs)
    exact ih (pipeStep t st) hstep.1 hstep.2 hrest

/-- Claim C6: handling an Interrupted event runs the drain loop, which is
atomic (it contains no await) and leaves the playback queue empty before
the receive loop touches any further event; any frame that was queued at
that moment is removed by the drain, and under any continuation of
playback, enqueue and interrupt steps in which that frame is not enqueued
again, it is never written to the audio sink. -/
theorem C6_interrupt_drains {F : Type} (s : PipeState F) (f : F)
    (steps : List (PipeStep F))
    (_hqueued : f ∈ s.queue) (hnot : f ∉ s.sink)
    (hfresh : ∀ g : F, PipeStep.enqueue g ∈ steps → g ≠ f) :
    (pipeStep s PipeStep.interrupt).queue = [] ∧
    f ∉ (pipeRun (pipeStep s PipeStep.interrupt) steps).sink := by
  have hq0 : (pipeStep s PipeStep.interrupt).queue = [] := by
    simp [pipeStep, drainLoop_eq_nil]
  refine ⟨hq0, ?_⟩
  have hq1 : f ∉ (pipeStep s PipeStep.interrupt).queue := by
    rw [hq0]
    exact List.not_mem_nil f
  have hs1 : f ∉ (pipeStep s PipeStep.interrupt).sink := by
    simpa [pipeStep] using hnot
  exact (pipeRun_not_sunk f steps _ hq1 hs1 hfresh).2

/-- Witness for claim C6: an interrupt arriving while five frames are
queued empties the queue, and frame 20 is never written to the sink in a
continuation that plays back and enqueues a fresh frame. -/
theorem C6_witness :
    (pipeStep (⟨[10, 20, 30, 40, 50], []⟩ : PipeState Nat) PipeStep.interrupt).queue = [] ∧
    (20 : Nat) ∉ (pipeRun
      (pipeStep (⟨[10, 20, 30, 40, 50], []⟩ : PipeState Nat) PipeStep.interrupt)
      [PipeStep.playback, PipeStep.enqueue 60, PipeStep.playback]).sink :=
  C6_interrupt_drains ⟨[10, 20, 30, 40, 50], []⟩ 20
    [PipeStep.playback, PipeStep.enqueue 60, PipeStep.playback]
    (by decide) (by decide)
    (by intro g hg; simp at hg; omega)

/-- The slot-collection loop never grows the list past three slots. -/
theorem findSlotsAux_length_le (busy : List (Nat × Nat)) (dur endT : Nat) :
    ∀ (fuel current : Nat) (acc : List Nat), acc.length ≤ 3 →
      (findSlotsAux busy dur endT fuel current acc).length ≤ 3 := by
  intro fuel
  induction fuel with
  | zero => intro current acc h; exact h
  | succ n ih =>
    intro current acc h
    by_cases hg : acc.length < 3 ∧ current < endT
    · rw [findSlotsAux, if_pos hg]
      apply ih
      obtain ⟨h3, _⟩ := hg
      split_ifs
      · exact h
      · simp
        omega
      · exact h
    · rw [findSlotsAux, if_neg hg]
      exact h

/-- Every slot the loop returns was in the accumulator already, or is a
timestamp at or after the cursor, before the search horizon, free of every
busy interval, and within business hours. -/
theorem findSlotsAux_sound (busy : List (Nat × Nat)) (dur endT : Nat) :
    ∀ (fuel current : Nat) (acc : List Nat) (t : Nat),
      t ∈ findSlotsAux busy dur endT fuel current acc →
      t ∈ acc ∨ (current ≤ t ∧ t < endT ∧
        overlapsBusy busy t (t + dur) = false ∧ businessHour t = true) := by
  intro fuel
  induction fuel with
  | zero => intro current acc t h; exact Or.inl h
  | succ n ih =>
    intro current acc t h
    by_cases hg : acc.length < 3 ∧ current < endT
    · rw [findSlotsAux, if_pos hg] at h
      rcases ih (current + 30) _ t h with hacc | hnew
      · revert hacc
        split_ifs with hb hh
        · exact fun hacc => Or.inl hacc
        · intro hacc
          rcases List.mem_append.mp hacc with h1 | h2
          · exact Or.inl h1
          · have ht : t = current := by simpa using h2
            subst ht
            have hb2 : overlapsBusy busy t (t + dur) = false := by
              cases hx : overlapsBusy busy t (t + dur)
              · rfl
              · exact absurd hx hb
            exact Or.inr ⟨le_refl t, hg.2, hb2, hh⟩
        · exact fun hacc => Or.inl hacc
      · refine Or.inr ⟨?_, hnew.2.1, hnew.2.2⟩
        have h30 := hnew.1
        omega
    · rw [findSlotsAux, if_neg hg] at h
      exact Or.inl h

/-- Claim C8, amended: for every start and duration, the slot search
returns at most 3 slots, each at or after the start, strictly inside the
48-hour window, non-overlapping with every busy interval the backend
reported, and starting within business hours (hour at least 9 and strictly
below 18); the returned string is the no-slots message (whose exact text is
"No free slots found in next 48 hours.") when the list is empty, and the
labelled slot list otherwise. -/
theorem C8_find_nearest_slots_sound (events : List Event) (start dur : Nat)
    (query : Nat → Nat → Except String (List Event)) (render : Nat → String)
    (hq : query start (start + 48 * 60) = Except.ok events) :
    (findSlotsAux (busyTimes events) dur (start + 48 * 60) 96 start []).length ≤ 3 ∧
    (∀ t ∈ findSlotsAux (busyTimes events) dur (start + 48 * 60) 96 start [],
      start ≤ t ∧ t < start + 48 * 60 ∧
      overlapsBusy (busyTimes events) t (t + dur) = false ∧
      businessHour t = true) ∧
    find_nearest_slots (Except.ok start) dur query render =
      (if (findSlotsAux (busyTimes events) dur (start + 48 * 60) 96 start []).isEmpty
       then "No free slots found in next 48 hours."
       else "Available slots: " ++ String.intercalate ", "
         ((findSlotsAux (busyTimes events) dur (start + 48 * 60) 96 start []).map render)) := by
  refine ⟨findSlotsAux_length_le _ _ _ _ _ _ (by simp), ?_, ?_⟩
  · intro t ht
    rcases findSlotsAux_sound (busyTimes events) dur (start + 48 * 60) 96 start [] t ht
      with h0 | h1
    · cases h0
    · exact h1
  · have hbody : find_nearest_slots_body (Except.ok start) dur query render =
        (if (findSlotsAux (busyTimes events) dur (start + 48 * 60) 96 start []).isEmpty
         then Except.ok "No free slots found in next 48 hours."
         else Except.ok ("Available slots: " ++ String.intercalate ", "
           ((findSlotsAux (busyTimes events) dur (start + 48 * 60) 96 start []).map render))) := by
      simp [find_nearest_slots_body, hq, Except.bind, Bind.bind,
        Except.instMonad, Except.pure, Pure.pure]
    by_cases he : (findSlotsAux (busyTimes events) dur (start + 48 * 60) 96 start []).isEmpty
    · simp [find_nearest_slots, hbody, he]
    · simp [find_nearest_slots, hbody, he]

/-- Claim C8, counterexample: with a single event blocking the whole
window, the slot list is empty and the tool returns the longer no-slots
string of the code, not the string the claim quotes. -/
theorem C8_counterexample :
    findSlotsAux (busyTimes [⟨"Block", "", some 0, some 10000⟩]) 60 (540 + 48 * 60) 96 540 [] = [] ∧
    find_nearest_slots (Except.ok 540) 60 blockQuery cexRender =
      "No free slots found in next 48 hours." ∧
    "No free slots found in next 48 hours." ≠ "No free slots found" := by
  refine ⟨by decide, rfl, by decide⟩

/-- Witness for claim C8 at the empty backend and a 9 AM start. -/
theorem C8_witness :
    (findSlotsAux (busyTimes []) 60 (540 + 48 * 60) 96 540 []).length ≤ 3 ∧
    (∀ t ∈ findSlotsAux (busyTimes []) 60 (540 + 48 * 60) 96 540 [],
      540 ≤ t ∧ t < 540 + 48 * 60 ∧
      overlapsBusy (busyTimes []) t (t + 60) = false ∧
      businessHour t = true) ∧
    find_nearest_slots (Except.ok 540) 60 emptyQuery cexRender =
      (if (findSlotsAux (busyTimes []) 60 (540 + 48 * 60) 96 540 []).isEmpty
       then "No free slots found in next 48 hours."
       else "Available slots: " ++ String.intercalate ", "
         ((findSlotsAux (busyTimes []) 60 (540 + 48 * 60) 96 540 []).map cexRender)) :=
  C8_find_nearest_slots_sound [] 540 60 emptyQuery cexRender rfl

end SchedAI
